import Mathlib

/-!
Shallow embedding of the authentication / token-lifecycle core of the
zzz-blog-node-service repository, together with theorems that settle the
frozen claims about it.

Embedded source files:
* `src/unnamed/part_005` — the `RedisManager` cache client (`set`/`get`/`del`,
  every operation swallowing its own errors);
* `src/unnamed/part_009` — the `UserService` (user lookup, password check,
  `updateLastLoginTime`);
* `src/unnamed/part_010` — the `AuthService` (`login`, `logout`,
  `verifyToken`, `refreshToken`, `generateToken`, `storeToken`);
* `src/middlewares/auth.middleware.js` — the request gate's `verifyToken`
  middleware (its token-error branch).

JavaScript runtime behaviour that the claims hinge on is modelled
explicitly: a `Promise` object is truthy, a call through an undefined
member throws a `TypeError`, `JSON.parse` either yields a value or throws
(modelled as `Option`), and thrown errors carry a `name` and a `message`.
-/

set_option autoImplicit false

namespace ZzzBlog

/-! ## JavaScript runtime primitives -/

/-- A thrown JavaScript error: its `name` ("Error", "TypeError",
"TokenExpiredError", "JsonWebTokenError") and its `message`. -/
structure JsError where
  name : String
  message : String
deriving DecidableEq, Repr

/-- A pending `Promise` as a value: calling an `async` function without
`await` yields such an object rather than the function's result. -/
structure JsPromise (α : Type) where
  val : α

/-- Every object is truthy in JavaScript, so a `Promise` tested with `!p`
or `if (p)` always passes the test, whatever it will resolve to. -/
def JsPromise.truthy {α : Type} (_ : JsPromise α) : Bool := true

/-! ## JSON values and `JSON.parse`

`RedisManager.get` (part_005, lines 198–222) runs the stored string through
`JSON.parse` and falls back to the raw string when parsing throws.  The
parser below models `JSON.parse`: whitespace, `null`, booleans, numbers,
strings with escapes, arrays and objects, with nothing but whitespace
allowed after the value.  Numeric literals are kept as their source text
(`JsValue.num "123"` denotes the JavaScript number 123); `\uXXXX` escapes
outside the scalar range are mapped through `Char.ofNat`'s fallback. -/

/-- A JavaScript value produced by `JSON.parse`. -/
inductive JsValue where
  | null
  | bool (b : Bool)
  | num (lit : String)
  | str (s : String)
  | arr (elems : List JsValue)
  | obj (fields : List (String × JsValue))
deriving Repr

/-- Whitespace accepted by `JSON.parse` between tokens. -/
def isJsonWs (c : Char) : Bool :=
  c = ' ' || c = '\t' || c = '\n' || c = '\r'

/-- Drop leading JSON whitespace. -/
def skipWs : List Char → List Char
  | [] => []
  | c :: cs => if isJsonWs c then skipWs cs else c :: cs

/-- Value of one hexadecimal digit. -/
def hexVal (c : Char) : Option Nat :=
  if '0' ≤ c ∧ c ≤ '9' then some (c.toNat - '0'.toNat)
  else if 'a' ≤ c ∧ c ≤ 'f' then some (c.toNat - 'a'.toNat + 10)
  else if 'A' ≤ c ∧ c ≤ 'F' then some (c.toNat - 'A'.toNat + 10)
  else none

/-- Character denoted by a `\uXXXX` escape. -/
def hex4 (a b c d : Char) : Option Char :=
  match hexVal a, hexVal b, hexVal c, hexVal d with
  | some ha, some hb, some hc, some hd =>
    some (Char.ofNat (((ha * 16 + hb) * 16 + hc) * 16 + hd))
  | _, _, _, _ => none

/-- Single-character escapes of JSON string literals. -/
def simpleEscape (c : Char) : Option Char :=
  if c = '"' then some '"'
  else if c = '\\' then some '\\'
  else if c = '/' then some '/'
  else if c = 'b' then some '\x08'
  else if c = 'f' then some '\x0c'
  else if c = 'n' then some '\n'
  else if c = 'r' then some '\r'
  else if c = 't' then some '\t'
  else none

/-- Body of a JSON string literal after the opening quote: the decoded
content and the input left after the closing quote.  Raw control characters
are rejected, as `JSON.parse` rejects them.  The fuel only bounds the
recursion; `cs.length + 1` is always enough. -/
def parseStringBody : Nat → List Char → Option (List Char × List Char)
  | 0, _ => none
  | _ + 1, [] => none
  | fuel + 1, c :: rest =>
    if c = '"' then some ([], rest)
    else if c = '\\' then
      match rest with
      | 'u' :: h1 :: h2 :: h3 :: h4 :: rest' =>
        match hex4 h1 h2 h3 h4, parseStringBody fuel rest' with
        | some e, some (s, r) => some (e :: s, r)
        | _, _ => none
      | e :: rest' =>
        match simpleEscape e, parseStringBody fuel rest' with
        | some ch, some (s, r) => some (ch :: s, r)
        | _, _ => none
      | [] => none
    else if c.toNat < 32 then none
    else
      match parseStringBody fuel rest with
      | some (s, r) => some (c :: s, r)
      | none => none

/-- Integer part of a JSON number: `0` or a nonzero digit followed by
digits (`JSON.parse` rejects leading zeros). -/
def parseIntDigits : List Char → Option (List Char × List Char)
  | [] => none
  | c :: rest =>
    if c = '0' then some (['0'], rest)
    else if c.isDigit then
      let p := rest.span (·.isDigit)
      some (c :: p.1, p.2)
    else none

/-- Fractional part `.digits` of a JSON number; consumes nothing when the
input does not start a valid fraction. -/
def parseFrac (cs : List Char) : List Char × List Char :=
  match cs with
  | '.' :: rest =>
    match rest.span (·.isDigit) with
    | ([], _) => ([], cs)
    | (ds, r) => ('.' :: ds, r)
  | _ => ([], cs)

/-- Exponent part `e[+-]digits` of a JSON number; consumes nothing when the
input does not start a valid exponent. -/
def parseExp (cs : List Char) : List Char × List Char :=
  match cs with
  | c :: rest =>
    if c = 'e' ∨ c = 'E' then
      match rest with
      | s :: rest' =>
        if s = '+' ∨ s = '-' then
          match rest'.span (·.isDigit) with
          | ([], _) => ([], cs)
          | (ds, r) => (c :: s :: ds, r)
        else
          match rest.span (·.isDigit) with
          | ([], _) => ([], cs)
          | (ds, r) => (c :: ds, r)
      | [] => ([], cs)
    else ([], cs)
  | [] => ([], [])

/-- A JSON numeric literal `-?int frac? exp?`: the literal's characters and
the rest of the input. -/
def parseNumber (cs : List Char) : Option (List Char × List Char) :=
  let p : Bool × List Char :=
    match cs with
    | '-' :: rest => (true, rest)
    | _ => (false, cs)
  match parseIntDigits p.2 with
  | none => none
  | some (ids, cs₂) =>
    let f := parseFrac cs₂
    let e := parseExp f.2
    some ((if p.1 then ['-'] else []) ++ ids ++ f.1 ++ e.1, e.2)

mutual

/-- One JSON value, as `JSON.parse` reads it, plus the rest of the input. -/
def parseValue : Nat → List Char → Option (JsValue × List Char)
  | 0, _ => none
  | fuel + 1, cs =>
    let cs' := skipWs cs
    if cs'.take 4 = ['n', 'u', 'l', 'l'] then some (.null, cs'.drop 4)
    else if cs'.take 4 = ['t', 'r', 'u', 'e'] then some (.bool true, cs'.drop 4)
    else if cs'.take 5 = ['f', 'a', 'l', 's', 'e'] then some (.bool false, cs'.drop 5)
    else
      match cs' with
      | '"' :: r =>
        match parseStringBody (r.length + 1) r with
        | some (s, rest) => some (.str (String.mk s), rest)
        | none => none
      | '[' :: r =>
        match skipWs r with
        | ']' :: r' => some (.arr [], r')
        | _ =>
          match parseElems fuel r with
          | some (vs, rest) => some (.arr vs, rest)
          | none => none
      | '{' :: r =>
        match skipWs r with
        | '}' :: r' => some (.obj [], r')
        | _ =>
          match parseMembers fuel r with
          | some (ms, rest) => some (.obj ms, rest)
          | none => none
      | _ =>
        match parseNumber cs' with
        | some (lit, rest) => some (.num (String.mk lit), rest)
        | none => none

/-- Comma-separated array elements up to the closing bracket. -/
def parseElems : Nat → List Char → Option (List JsValue × List Char)
  | 0, _ => none
  | fuel + 1, cs =>
    match parseValue fuel cs with
    | none => none
    | some (v, rest) =>
      match skipWs rest with
      | ',' :: r =>
        match parseElems fuel r with
        | some (vs, rest') => some (v :: vs, rest')
        | none => none
      | ']' :: r => some ([v], r)
      | _ => none

/-- Comma-separated `"key": value` members up to the closing brace. -/
def parseMembers : Nat → List Char → Option (List (String × JsValue) × List Char)
  | 0, _ => none
  | fuel + 1, cs =>
    match skipWs cs with
    | '"' :: r =>
      match parseStringBody (r.length + 1) r with
      | none => none
      | some (k, rest) =>
        match skipWs rest with
        | ':' :: r' =>
          match parseValue fuel r' with
          | none => none
          | some (v, rest') =>
            match skipWs rest' with
            | ',' :: r'' =>
              match parseMembers fuel r'' with
              | some (ms, rest'') => some ((String.mk k, v) :: ms, rest'')
              | none => none
            | '}' :: r'' => some ([(String.mk k, v)], r'')
            | _ => none
        | _ => none
    | _ => none

end

/-- Model of `JSON.parse(s)`: `some v` when the whole string is one JSON
value, `none` when `JSON.parse` would throw a `SyntaxError`. -/
def jsonParse (s : String) : Option JsValue :=
  match parseValue (s.length + 1) s.toList with
  | some (v, rest) => if skipWs rest = [] then some v else none
  | none => none

/-! ## Association-list store

Redis key→value state, as an association list with at most one live entry
per key (writes overwrite in place, reads take the first match). -/

/-- Value stored under `k`, if any. -/
def lookupKV {α : Type} : List (String × α) → String → Option α
  | [], _ => none
  | (k', v) :: rest, k => if k' = k then some v else lookupKV rest k

/-- Overwrite the entry for `k`, or append one. -/
def upsertKV {α : Type} : List (String × α) → String → α → List (String × α)
  | [], k, v => [(k, v)]
  | (k', v') :: rest, k, v =>
    if k' = k then (k, v) :: rest else (k', v') :: upsertKV rest k v

/-- Drop the entry for `k`. -/
def removeKV {α : Type} : List (String × α) → String → List (String × α)
  | [], _ => []
  | (k', v') :: rest, k =>
    if k' = k then removeKV rest k else (k', v') :: removeKV rest k

/-! ## RedisManager (src/unnamed/part_005)

The connection machinery (`connect`, reconnection events, `healthCheck`) is
abstracted to one `connected` flag: `ensureConnection` reports it, and every
operation that needs the client throws `Redis 连接不可用` when it is down —
a throw each operation's own `catch` then swallows.  Time is not advanced,
so a key's remaining TTL is not tracked beyond `setex`'s argument check. -/

/-- State of the Redis cache as `RedisManager` sees it: the stored strings
and whether the connection is usable. -/
structure RedisState where
  entries : List (String × String)
  connected : Bool
deriving DecidableEq, Repr

namespace RedisManager

/-- Model of `ensureConnection` (part_005, lines 142–163): reports whether the
connection is usable; its reconnect attempt is abstracted into the flag. -/
def ensureConnection (st : RedisState) : Bool := st.connected

/-- Model of `set(key, value, ttl)` (part_005, lines 168–192) restricted to string
values (for a string, `typeof value === 'string'` keeps it unchanged, so
`stringValue = value`).  `if (ttl)` is falsy for `null` and `0`, giving a
plain `SET`; `SETEX` with a non-positive ttl is a Redis error.  Every error
is caught, logged and turned into `null`: the pair is (returned value, new
state). -/
def set (st : RedisState) (key value : String) (ttl : Option Int) :
    Option String × RedisState :=
  if !ensureConnection st then (none, st)
  else
    let stringValue := value
    let written : RedisState := { st with entries := upsertKV st.entries key stringValue }
    match ttl with
    | none => (some "OK", written)
    | some t =>
      if t = 0 then (some "OK", written)
      else if 0 < t then (some "OK", written)
      else (none, st)

/-- Model of `get(key)` (part_005, lines 198–222): `null` when the connection is
down (the internal throw is caught and becomes `null`), `null` when the key
is absent, otherwise the stored string run through `JSON.parse` with the
raw string as fallback. -/
def get (st : RedisState) (key : String) : Option JsValue :=
  if !ensureConnection st then none
  else
    match lookupKV st.entries key with
    | none => none
    | some value =>
      match jsonParse value with
      | some j => some j
      | none => some (.str value)

/-- Model of `del(keys)` (part_005, lines 228–239) for a single key: the number of
deleted keys, with any error caught and turned into `0`. -/
def del (st : RedisState) (key : String) : Nat × RedisState :=
  if !st.connected then (0, st)
  else
    ((if (lookupKV st.entries key).isSome then 1 else 0),
     { st with entries := removeKV st.entries key })

end RedisManager

/-! ## JSON Web Tokens (the `jsonwebtoken` library as part_010 uses it)

A signed compact JWT string is determined by its payload, its `iat`/`exp`
timestamps and the secret that signed it, and the serialisation is
injective in those fields; tokens are therefore represented by that data
directly.  A compact JWT string (`eyJ...`.`...`.`...`) is never a valid
JSON document — its first character alone rules it out (see
`jwt_shaped_string_not_json`) — so `RedisManager.get` always returns a
stored token string verbatim; the token-valued session cache below builds
that fact in. -/

/-- Claims `AuthService.generateToken` signs into a token
(part_010, lines 169–177). -/
structure TokenClaims where
  id : Nat
  username : String
  email : String
  role : String
deriving DecidableEq, Repr

/-- A signed compact JWT, identified with its serialised string. -/
structure Token where
  payload : TokenClaims
  iat : Nat
  exp : Nat
  secret : String
deriving DecidableEq, Repr

/-- Payload object returned by `jwt.verify` / `jwt.decode`: the signed
claims plus the `iat` and `exp` timestamps. -/
structure DecodedToken where
  id : Nat
  username : String
  email : String
  role : String
  iat : Nat
  exp : Nat
deriving DecidableEq, Repr

/-- Model of `jwt.sign(payload, secret, {expiresIn})` at time `now` (seconds). -/
def jwtSign (payload : TokenClaims) (secretKey : String) (expiresIn now : Nat) : Token :=
  { payload := payload, iat := now, exp := now + expiresIn, secret := secretKey }

/-- Model of `jwt.decode(token)`: the payload without any verification. -/
def jwtDecode (tok : Token) : DecodedToken :=
  { id := tok.payload.id, username := tok.payload.username,
    email := tok.payload.email, role := tok.payload.role,
    iat := tok.iat, exp := tok.exp }

/-- Model of `jwt.verify(token, secret)` at time `now`: a `JsonWebTokenError` when
the signature does not verify under `secret`, a `TokenExpiredError` when
`exp ≤ now`, otherwise the decoded payload. -/
def jwtVerify (tok : Token) (secretKey : String) (now : Nat) : Except JsError DecodedToken :=
  if tok.secret ≠ secretKey then .error ⟨"JsonWebTokenError", "invalid signature"⟩
  else if tok.exp ≤ now then .error ⟨"TokenExpiredError", "jwt expired"⟩
  else .ok (jwtDecode tok)

/-! ## Session cache holding token strings

`AuthService` stores only compact JWT strings in Redis, and `JSON.parse`
fails on every such string, so part_005's `get` hands them back verbatim;
the cache the auth layer sees is `RedisManager` with `Token`-typed
values. -/

/-- The Redis state as the auth layer sees it: JWT strings under their
session keys, plus the connection flag. -/
structure TokenCache where
  entries : List (String × Token)
  connected : Bool
deriving DecidableEq, Repr

namespace SessionCache

/-- Behaviour of `RedisManager.set` on a JWT string value (part_005, lines 168–192):
identical control flow to `RedisManager.set`, with the value kept as the
token it serialises. -/
def set (c : TokenCache) (key : String) (tok : Token) (ttl : Option Int) :
    Option String × TokenCache :=
  if !c.connected then (none, c)
  else
    let written : TokenCache := { c with entries := upsertKV c.entries key tok }
    match ttl with
    | none => (some "OK", written)
    | some t =>
      if t = 0 then (some "OK", written)
      else if 0 < t then (some "OK", written)
      else (none, c)

/-- Behaviour of `RedisManager.get` on a key holding a JWT string (part_005, lines
198–222): `null` on a down connection or a missing key; a stored JWT
string never parses as JSON, so it is returned verbatim. -/
def get (c : TokenCache) (key : String) : Option Token :=
  if !c.connected then none
  else lookupKV c.entries key

/-- Behaviour of `RedisManager.del` (part_005, lines 228–239). -/
def del (c : TokenCache) (key : String) : Nat × TokenCache :=
  if !c.connected then (0, c)
  else
    ((if (lookupKV c.entries key).isSome then 1 else 0),
     { c with entries := removeKV c.entries key })

end SessionCache

/-! ## UserService (src/unnamed/part_009) -/

/-- A row of the `User` table, with the fields the auth flows read.
`password` holds the bcrypt hash of the account's password. -/
structure User where
  id : Nat
  username : String
  email : String
  password : String
  avatar : String
  role : String
  status : String
deriving DecidableEq, Repr

namespace UserService

/-- Model of `findByUsername(username)` (part_009, lines 13–20): the first user row
matching the username, or `null`. -/
def findByUsername (users : List User) (username : String) : Option User :=
  users.find? (fun u => u.username = username)

/-- Model of `findById(userId)` (part_009, lines 38–40): lookup by primary key. -/
def findById (users : List User) (userId : Nat) : Option User :=
  users.find? (fun u => u.id = userId)

/-- Model of `verifyPassword(password, hashedPassword)` (part_009, lines 47–50):
`bcrypt.compareSync` on the plaintext and the stored hash.  The bcrypt
library is passed in as the comparison function `compareSync`. -/
def verifyPassword (compareSync : String → String → Bool)
    (password hashedPassword : String) : Bool :=
  compareSync password hashedPassword

end UserService

/-! ## AuthService (src/unnamed/part_010) -/

/-- Constant `JWT_SECRET`: defaults to `'your_jwt_secret'` (part_010, line 9). -/
def JWT_SECRET : String := "your_jwt_secret"

/-- Constant `JWT_EXPIRATION`: defaults to `'1d'` (part_010, line 10): 86400 seconds. -/
def JWT_EXPIRATION : Nat := 86400

/-- The user object `login` returns (part_010, lines 48–56): the account's
fields without the password hash. -/
structure LoginUser where
  id : Nat
  username : String
  email : String
  avatar : String
  role : String
  status : String
deriving DecidableEq, Repr

/-- The `{user, token}` value a successful `login` would return. -/
structure LoginResult where
  user : LoginUser
  token : Token
deriving DecidableEq, Repr

/-- The state the auth flows read and write: the user table and the Redis
session cache. -/
structure AuthState where
  users : List User
  cache : TokenCache
deriving DecidableEq, Repr

namespace AuthService

/-- Key `storeToken` and `logout` use: `` `user:${userId}` ``
(part_010, lines 105 and 194). -/
def storeKey (userId : Nat) : String := "user:" ++ toString userId

/-- Key `verifyToken` reads: `` `user:${decoded.id}:token` ``
(part_010, line 123). -/
def verifyKey (id : Nat) : String := "user:" ++ toString id ++ ":token"

/-- Model of `generateToken(user)` (part_010, lines 169–178) at time `now`: signs
`{id, username, email, role}` with `JWT_SECRET`, expiring in
`JWT_EXPIRATION` seconds. -/
def generateToken (user : User) (now : Nat) : Token :=
  jwtSign ⟨user.id, user.username, user.email, user.role⟩ JWT_SECRET JWT_EXPIRATION now

/-- Model of `storeToken(userId, token)` (part_010, lines 188–199): decodes the
token's `exp`, computes the remaining lifetime and writes the token under
`` `user:${userId}` ``; the surrounding `try/catch` logs and swallows every
error (`// throw error;// 错误不影响主流程`), and `RedisManager.set` already
swallows its own, so the call always completes and at worst leaves the
cache unchanged. -/
def storeToken (st : AuthState) (userId : Nat) (token : Token) (now : Nat) : AuthState :=
  let decoded := jwtDecode token
  let expiresAt : Int := (decoded.exp : Int) - (now : Int)
  let r := SessionCache.set st.cache (storeKey userId) token (some expiresAt)
  { st with cache := r.2 }

/-- Model of `login(username, password)` (part_010, lines 23–59).  The password
check calls the `async` `verifyPassword` WITHOUT `await` (line 32), so
`isPasswordValid` is a pending Promise — truthy whatever the comparison
will resolve to — and the `密码错误` branch is unreachable.  After the
status check, line 41 calls `userService.updateLastLogin(user.id)`;
part_009's `UserService` defines `updateLastLoginTime` but no
`updateLastLogin`, so the member is `undefined` and the call throws a
`TypeError`, making the rest of `login` (token generation, `storeToken`,
the `{user, token}` return) unreachable. -/
def login (compareSync : String → String → Bool) (st : AuthState)
    (username password : String) : Except JsError (LoginResult × AuthState) :=
  match UserService.findByUsername st.users username with
  | none => .error ⟨"Error", "用户不存在"⟩
  | some user =>
    let isPasswordValid : JsPromise Bool :=
      ⟨UserService.verifyPassword compareSync password user.password⟩
    if !isPasswordValid.truthy then .error ⟨"Error", "密码错误"⟩
    else if user.status ≠ "active" then .error ⟨"Error", "用户已被禁用"⟩
    else .error ⟨"TypeError", "userService.updateLastLogin is not a function"⟩

/-- Model of `logout(userId)` (part_010, lines 102–111): deletes
`` `user:${userId}` `` and returns `true`; the `catch` returns `true` as
well (`// 登出成功，即使删除失败也返回成功`), and `RedisManager.del`
swallows its own errors, so the result is `true` in every state. -/
def logout (st : AuthState) (userId : Nat) : Bool × AuthState :=
  let r := SessionCache.del st.cache (storeKey userId)
  (true, { st with cache := r.2 })

/-- Model of `verifyToken(token)` (part_010, lines 118–139) at time `now`: verify
the signature and expiry, then read `` `user:${decoded.id}:token` `` from
Redis and require an exact match with the presented token
(`!storedToken || storedToken !== token`).  The `catch` logs and rethrows
the error unchanged on all three of its branches. -/
def verifyToken (st : AuthState) (token : Token) (now : Nat) :
    Except JsError DecodedToken :=
  match jwtVerify token JWT_SECRET now with
  | .error e => .error e
  | .ok decoded =>
    match SessionCache.get st.cache (verifyKey decoded.id) with
    | none => .error ⟨"Error", "令牌已失效"⟩
    | some storedToken =>
      if storedToken ≠ token then .error ⟨"Error", "令牌已失效"⟩
      else .ok decoded

/-- Body of `refreshToken`'s `try` block (part_010, lines 147–159):
verify the presented token, re-fetch the account, throw `用户不存在` when
it is gone, otherwise issue a new token and store it as login would. -/
def refreshTokenBody (st : AuthState) (token : Token) (now : Nat) :
    Except JsError (Token × AuthState) :=
  match verifyToken st token now with
  | .error e => .error e
  | .ok decoded =>
    match UserService.findById st.users decoded.id with
    | none => .error ⟨"Error", "用户不存在"⟩
    | some user =>
      let newToken := generateToken user now
      let st' := storeToken st user.id newToken now
      .ok (newToken, st')

/-- Model of `refreshToken(token)` (part_010, lines 145–163): the `catch` replaces
EVERY failure of the body — verification failures and the missing-account
`用户不存在` alike — with one generic `new Error('刷新令牌失败')`. -/
def refreshToken (st : AuthState) (token : Token) (now : Nat) :
    Except JsError (Token × AuthState) :=
  match refreshTokenBody st token now with
  | .ok r => .ok r
  | .error _ => .error ⟨"Error", "刷新令牌失败"⟩

end AuthService

/-! ## Request gate (src/middlewares/auth.middleware.js)

The middleware's token branch: `authService.verifyToken` succeeded →
attach the claims and continue; it threw → pick the client-visible
rejection message from the error's `name`/`message` (lines 31–40), any
other error being rethrown into the outer catch's
`apiUnauthorized('认证失败', {error})`. -/

/-- Client-visible outcome of the gate once a bearer token was presented. -/
inductive GateOutcome where
  | proceed (user : DecodedToken)
  | unauthorized (message : String) (detail : Option String)
deriving DecidableEq, Repr

/-- Rejection message the middleware sends for a `verifyToken` error
(auth.middleware.js, lines 31–44). -/
def gateRejectMessage (e : JsError) : String :=
  if e.name = "TokenExpiredError" then "令牌已过期"
  else if e.name = "JsonWebTokenError" then "无效的令牌"
  else if e.message = "令牌已失效" then "令牌已失效，请重新登录"
  else "认证失败"

/-- The gate's handling of `authService.verifyToken`'s outcome
(auth.middleware.js, lines 23–44): attach `req.user = decoded` and call
`next()`, or reject with the message `gateRejectMessage` picks — the outer
catch additionally exposing the raw error message as detail. -/
def gateHandle (result : Except JsError DecodedToken) : GateOutcome :=
  match result with
  | .ok decoded => .proceed decoded
  | .error e =>
    if e.name = "TokenExpiredError" ∨ e.name = "JsonWebTokenError" ∨
        e.message = "令牌已失效" then
      .unauthorized (gateRejectMessage e) none
    else
      .unauthorized "认证失败" (some e.message)

/-! ## Support lemmas -/

theorem skipWs_length (cs : List Char) : (skipWs cs).length ≤ cs.length := by
  induction cs with
  | nil => simp [skipWs]
  | cons c rest ih =>
    rw [skipWs]
    split
    · exact ih.trans (by simp)
    · simp

/-- A parsed string literal consumes its two quotes on top of (at least)
one input character per produced character. -/
theorem parseStringBody_length :
    ∀ (fuel : Nat) (cs s r : List Char),
      parseStringBody fuel cs = some (s, r) → s.length + 1 + r.length ≤ cs.length := by
  intro fuel
  induction fuel with
  | zero => intro cs s r h; simp [parseStringBody] at h
  | succ n ih =>
    intro cs s r h
    match cs with
    | [] => simp [parseStringBody] at h
    | c :: rest =>
      simp only [parseStringBody] at h
      split at h
      · obtain ⟨rfl, rfl⟩ := by simpa using h
        simp only [List.length_nil, List.length_cons]
        omega
      · split at h
        · split at h
          · split at h
            · obtain ⟨rfl, rfl⟩ := by simpa using h
              have hb := ih _ _ _ (by assumption)
              simp only [List.length_cons] at hb ⊢
              omega
            · simp at h
          · split at h
            · obtain ⟨rfl, rfl⟩ := by simpa using h
              have hb := ih _ _ _ (by assumption)
              simp only [List.length_cons] at hb ⊢
              omega
            · simp at h
          · simp at h
        · split at h
          · simp at h
          · split at h
            · obtain ⟨rfl, rfl⟩ := by simpa using h
              have hb := ih _ _ _ (by assumption)
              simp only [List.length_cons] at hb ⊢
              omega
            · simp at h

/-- Lemma: `JSON.parse` has no string fixed point: a parse that yields a string
yields a strictly shorter one (the quotes are consumed), so no string
parses to itself. -/
theorem jsonParse_ne_str_self (v : String) : jsonParse v ≠ some (.str v) := by
  intro h
  rw [jsonParse] at h
  split at h
  · rename_i val rest hp
    split at h
    · obtain rfl : val = .str v := by simpa using h
      rw [parseValue] at hp
      split at hp <;> try simp_all
      split at hp <;> try simp_all
      split at hp <;> try simp_all
      split at hp
      · rename_i r hws
        split at hp
        · rename_i p s rest₂ hbody
          obtain ⟨hmk, -⟩ := by simpa using hp
          have hlen := parseStringBody_length _ _ _ _ hbody
          have hws' : (skipWs v.data).length ≤ v.data.length := skipWs_length v.data
          rw [hws] at hws'
          have hv : v.data = s := by rw [← hmk]
          simp only [List.length_cons, hv] at hws' hlen
          omega
        · simp at hp
      · split at hp
        · simp at hp
        · split at hp <;> simp_all
      · split at hp
        · simp at hp
        · split at hp <;> simp_all
      · split at hp <;> simp_all
    · simp at h
  · simp at h

theorem lookupKV_upsertKV_self {α : Type} (l : List (String × α)) (k : String) (v : α) :
    lookupKV (upsertKV l k v) k = some v := by
  induction l with
  | nil => simp [upsertKV, lookupKV]
  | cons p rest ih =>
    obtain ⟨k', v'⟩ := p
    by_cases hk : k' = k <;> simp [upsertKV, lookupKV, hk, ih]

/-- A compact JWT string starts with a base64url character (`e` for the
`{"alg"...` header), which no JSON document may start with, so
`JSON.parse` fails on it and `RedisManager.get` hands it back verbatim. -/
theorem jwt_shaped_string_not_json :
    (jsonParse "eyJhbGciOiJIUzI1NiJ9.eyJpZCI6MX0.Q3q6QxK0Fn0").isNone = true := by decide

/-! ## Concrete fixtures for the closed statements -/

/-- Concrete stand-in for `bcrypt.compareSync`: a stored hash matches
exactly the password it tags. -/
def bcModel (password hashed : String) : Bool := hashed == "bcrypt$" ++ password

/-- An active account whose stored hash is `bcModel`'s hash of `secret`. -/
def alice : User :=
  { id := 1, username := "alice", email := "alice@example.com",
    password := "bcrypt$secret", avatar := "", role := "user", status := "active" }

/-- A reachable, empty session cache. -/
def emptyCache : TokenCache := { entries := [], connected := true }

/-- An unreachable session cache: every operation on it fails internally. -/
def downCache : TokenCache := { entries := [], connected := false }

/-- Token `generateToken` issues for `alice` at time 0. -/
def tokenAt0 : Token := AuthService.generateToken alice 0

/-- Token `generateToken` issues for `alice` at time 5. -/
def tokenAt5 : Token := AuthService.generateToken alice 5

/-- A token for account 1 signed with a secret other than `JWT_SECRET`. -/
def badSecretToken : Token :=
  jwtSign ⟨1, "alice", "alice@example.com", "user"⟩ "other_secret" 86400 0

/-- State after the `storeToken` calls of two successive logins of account
1 (the only cache writes a login would perform). -/
def stAfterTwoStores : AuthState :=
  AuthService.storeToken
    (AuthService.storeToken ⟨[alice], emptyCache⟩ alice.id tokenAt0 0)
    alice.id tokenAt5 5

/-- A cache state in which `verifyToken`'s read key for account 1 does hold
`tokenAt0` (reachable only by an external writer, never by this code). -/
def refreshReadyCache : TokenCache :=
  { entries := [(AuthService.verifyKey 1, tokenAt0)], connected := true }

/-- State with `alice` present and her token under `verifyToken`'s key, so
that `refreshToken`'s success path is exercised. -/
def refreshOkState : AuthState := ⟨[alice], refreshReadyCache⟩

/-! ## The claims -/

/-- C1: the claim says `login` fails with `密码错误` (InvalidCredentials)
whenever the presented password does not match the stored hash, and
proceeds past the password check only on a match.  In part_010 line 32 the
`async` `verifyPassword` is called without `await`, so `isPasswordValid`
is a pending Promise — truthy regardless of the comparison — and the
mismatch branch is dead code: no input whatsoever makes `login` fail with
`密码错误`, and a wrong password for an active account sails past the
check, failing only later at the unrelated `updateLastLogin` TypeError. -/
theorem login_password_check_unreachable (compareSync : String → String → Bool)
    (st : AuthState) (username password : String) :
    AuthService.login compareSync st username password ≠
      Except.error ⟨"Error", "密码错误"⟩ ∧
    bcModel "wrongpassword" alice.password = false ∧
    AuthService.login bcModel ⟨[alice], emptyCache⟩ "alice" "wrongpassword" =
      Except.error ⟨"TypeError", "userService.updateLastLogin is not a function"⟩ := by
  refine ⟨?_, by decide, by rfl⟩
  unfold AuthService.login
  split
  · simp
  · simp only [JsPromise.truthy, Bool.not_true, Bool.false_eq_true, if_false]
    split <;> simp

/-- C2: the claim says the cache key written by `storeToken` is the key
read back by `verifyToken`, so that login-then-verify round-trips the
identity.  In the code `storeToken` writes `` `user:${userId}` `` (line
194) while `verifyToken` reads `` `user:${decoded.id}:token` `` (line
123): the two keys differ for every account id, and a token freshly stored
by `storeToken` — the only store a login performs — fails `verifyToken`
with `令牌已失效`. -/
theorem storeToken_verifyToken_key_mismatch :
    (∀ userId : Nat, AuthService.storeKey userId ≠ AuthService.verifyKey userId) ∧
    AuthService.verifyToken
        (AuthService.storeToken ⟨[alice], emptyCache⟩ alice.id tokenAt0 0)
        tokenAt0 1 =
      Except.error ⟨"Error", "令牌已失效"⟩ := by
  constructor
  · intro userId h
    have hlen := congrArg String.length h
    rw [AuthService.storeKey, AuthService.verifyKey, String.length_append,
      String.length_append, String.length_append] at hlen
    have h6 : (":token" : String).length = 6 := rfl
    rw [h6] at hlen
    omega
  · rfl

/-- C3: the claim says a second login overwrites the single session entry
so that the first token is `Revoked` while the second verifies.  The
overwrite is real — after the stores of two logins of account 1 the cache
holds exactly one entry, under `user:1`, with the second token — but the
claim's conclusion fails: the SECOND token is also rejected with
`令牌已失效`, because `verifyToken` reads `user:1:token`, a key no login
ever writes (and the logins themselves already abort earlier at the
missing `updateLastLogin`). -/
theorem second_store_overwrites_but_both_tokens_fail :
    stAfterTwoStores.cache.entries = [(AuthService.storeKey alice.id, tokenAt5)] ∧
    AuthService.verifyToken stAfterTwoStores tokenAt5 6 =
      Except.error ⟨"Error", "令牌已失效"⟩ ∧
    AuthService.verifyToken stAfterTwoStores tokenAt0 6 =
      Except.error ⟨"Error", "令牌已失效"⟩ :=
  ⟨rfl, rfl, rfl⟩

/-- C10: `logout` is total and idempotent at its interface: for every
state (entry present or not, connection up or down, the inner delete
failing or not) it returns `true`, and run twice in a row it returns
`true` both times. -/
theorem logout_total_idempotent (st : AuthState) (userId : Nat) :
    (AuthService.logout st userId).1 = true ∧
    (AuthService.logout (AuthService.logout st userId).2 userId).1 = true :=
  ⟨rfl, rfl⟩

/-- C4: fail-closed verification — when the session-cache read fails (the
connection is down), `RedisManager.get` swallows its internal error into
`null` and `verifyToken` treats that as a missing entry: every token with
a valid signature and unexpired `exp` is rejected with `令牌已失效`
rather than accepted, so a cache outage is never read as "not revoked". -/
theorem verifyToken_fail_closed_on_cache_outage (st : AuthState) (token : Token)
    (now : Nat) (hdown : st.cache.connected = false)
    (hsig : token.secret = JWT_SECRET) (hexp : now < token.exp) :
    AuthService.verifyToken st token now = Except.error ⟨"Error", "令牌已失效"⟩ := by
  unfold AuthService.verifyToken jwtVerify
  rw [if_neg (by simp [hsig]), if_neg (by omega)]
  unfold SessionCache.get
  rw [hdown]
  rfl

theorem verifyToken_fail_closed_witness :
    AuthService.verifyToken ⟨[alice], downCache⟩ tokenAt0 1 =
      Except.error ⟨"Error", "令牌已失效"⟩ :=
  verifyToken_fail_closed_on_cache_outage ⟨[alice], downCache⟩ tokenAt0 1
    rfl rfl (by decide)

/-- C5: the spec wants the last-login-timestamp update to be best-effort
("attempt, log, do not propagate"); in the code, line 41's
`await userService.updateLastLogin(user.id)` calls a method part_009's
`UserService` never defines (only `updateLastLoginTime` exists), so for
EVERY account that passes the lookup and status checks — whatever the
password — `login` throws the TypeError, aborts, and never returns a
`{user, token}` value. -/
theorem login_aborts_at_updateLastLogin (compareSync : String → String → Bool)
    (st : AuthState) (username password : String) (user : User)
    (hfind : UserService.findByUsername st.users username = some user)
    (hactive : user.status = "active") :
    AuthService.login compareSync st username password =
      Except.error ⟨"TypeError", "userService.updateLastLogin is not a function"⟩ := by
  unfold AuthService.login
  rw [hfind]
  simp [JsPromise.truthy, hactive]

theorem login_aborts_witness :
    AuthService.login bcModel ⟨[alice], emptyCache⟩ "alice" "secret" =
      Except.error ⟨"TypeError", "userService.updateLastLogin is not a function"⟩ :=
  login_aborts_at_updateLastLogin bcModel ⟨[alice], emptyCache⟩ "alice" "secret"
    alice rfl rfl

/-- C6 counterexample: the claim's "login still returns its token" part is
false — with the session cache down (so any `set` would fail), a correct
password for an active account does not produce a token: `login` throws
the `updateLastLogin` TypeError before `storeToken` is ever reached. -/
theorem login_returns_no_token_on_set_failure :
    AuthService.login bcModel ⟨[alice], downCache⟩ "alice" "secret" =
      Except.error ⟨"TypeError", "userService.updateLastLogin is not a function"⟩ :=
  rfl

/-- C6 amended: session-cache write failures are indeed swallowed:
`RedisManager.set` on a down connection returns `null` instead of
throwing and leaves the state unchanged, so `storeToken` completes (at
worst leaving the cache as it was), and `logout` returns `true` in every
state, the underlying delete failing or not. -/
theorem cache_write_failures_swallowed (st : AuthState) (rst : RedisState)
    (userId : Nat) (token : Token) (now : Nat) (key value : String)
    (ttl : Option Int) (hdown : st.cache.connected = false)
    (hrdown : rst.connected = false) :
    RedisManager.set rst key value ttl = (none, rst) ∧
    AuthService.storeToken st userId token now = st ∧
    (AuthService.logout st userId).1 = true := by
  refine ⟨?_, ?_, rfl⟩
  · unfold RedisManager.set RedisManager.ensureConnection
    rw [hrdown]
    rfl
  · unfold AuthService.storeToken SessionCache.set
    rw [hdown]
    rfl

theorem cache_write_failures_swallowed_witness :
    RedisManager.set ⟨[], false⟩ "k" "v" (some 60) = (none, ⟨[], false⟩) ∧
    AuthService.storeToken ⟨[alice], downCache⟩ 1 tokenAt0 0 = ⟨[alice], downCache⟩ ∧
    (AuthService.logout ⟨[alice], downCache⟩ 1).1 = true :=
  cache_write_failures_swallowed ⟨[alice], downCache⟩ ⟨[], false⟩ 1 tokenAt0 0
    "k" "v" (some 60) rfl rfl

/-- C7 counterexample: the claim says the gate's rejection is observably
identical for the InvalidSignature and Revoked cases.  It is not: a token
signed with the wrong secret is answered with `无效的令牌`, while a
revoked token (valid signature, no matching cache entry) is answered with
`令牌已失效，请重新登录` — two different client-visible messages. -/
theorem gate_distinguishes_bad_signature_from_revoked :
    gateHandle (AuthService.verifyToken ⟨[alice], emptyCache⟩ badSecretToken 1) =
      GateOutcome.unauthorized "无效的令牌" none ∧
    gateHandle (AuthService.verifyToken ⟨[alice], emptyCache⟩ tokenAt0 1) =
      GateOutcome.unauthorized "令牌已失效，请重新登录" none ∧
    ("无效的令牌" : String) ≠ "令牌已失效，请重新登录" :=
  ⟨rfl, rfl, by decide⟩

/-- C7 amended: the gate maps each failure kind to a message of its own —
`TokenExpiredError` to the distinct `令牌已过期` (as claimed), but
`JsonWebTokenError` to `无效的令牌` and the revocation error to
`令牌已失效，请重新登录`, three pairwise different strings — so the
InvalidSignature and Revoked cases ARE client-distinguishable. -/
theorem gate_rejection_message_per_kind (e : JsError) :
    (e.name = "TokenExpiredError" → gateRejectMessage e = "令牌已过期") ∧
    (e.name = "JsonWebTokenError" → gateRejectMessage e = "无效的令牌") ∧
    (e.name = "Error" → e.message = "令牌已失效" →
      gateRejectMessage e = "令牌已失效，请重新登录") ∧
    ("令牌已过期" : String) ≠ "无效的令牌" ∧
    ("令牌已过期" : String) ≠ "令牌已失效，请重新登录" ∧
    ("无效的令牌" : String) ≠ "令牌已失效，请重新登录" := by
  refine ⟨?_, ?_, ?_, by decide, by decide, by decide⟩
  · intro h
    simp [gateRejectMessage, h]
  · intro h
    simp [gateRejectMessage, h]
  · intro h h'
    simp [gateRejectMessage, h, h']

/-- C8 counterexample: the claim says `refreshToken` fails with a
distinguishable `NotFound` when the account no longer exists.  With a
verifiable token for account 1 whose user row is gone, the body does
throw `用户不存在` — but `refreshToken`'s catch replaces it with the
generic `刷新令牌失败`, a different message, so the caller cannot tell
the NotFound case apart from any other failure. -/
theorem refreshToken_collapses_missing_account :
    AuthService.refreshToken ⟨[], refreshReadyCache⟩ tokenAt0 1 =
      Except.error ⟨"Error", "刷新令牌失败"⟩ ∧
    AuthService.refreshTokenBody ⟨[], refreshReadyCache⟩ tokenAt0 1 =
      Except.error ⟨"Error", "用户不存在"⟩ ∧
    ("刷新令牌失败" : String) ≠ "用户不存在" :=
  ⟨rfl, rfl, by decide⟩

/-- C8 amended: for every token that passes verification, `refreshToken`
fails with the GENERIC `刷新令牌失败` (not a distinguishable NotFound)
when the account no longer exists; when the account exists it returns the
token generated at the current time — different from the input whenever
the input carries a different issue time — and stores it through
`storeToken` exactly as login's success path would. -/
theorem refreshToken_behaviour (st : AuthState) (token : Token) (now : Nat)
    (decoded : DecodedToken)
    (hver : AuthService.verifyToken st token now = Except.ok decoded) :
    (UserService.findById st.users decoded.id = none →
      AuthService.refreshToken st token now =
        Except.error ⟨"Error", "刷新令牌失败"⟩) ∧
    (∀ user : User, UserService.findById st.users decoded.id = some user →
      AuthService.refreshToken st token now =
        Except.ok (AuthService.generateToken user now,
          AuthService.storeToken st user.id (AuthService.generateToken user now) now) ∧
      (token.iat ≠ now → AuthService.generateToken user now ≠ token)) := by
  constructor
  · intro hnone
    unfold AuthService.refreshToken AuthService.refreshTokenBody
    rw [hver]
    simp [hnone]
  · intro user huser
    constructor
    · unfold AuthService.refreshToken AuthService.refreshTokenBody
      rw [hver]
      simp [huser]
    · intro hiat heq
      exact hiat ((congrArg Token.iat heq).symm)

theorem refreshToken_behaviour_witness :
    AuthService.refreshToken refreshOkState tokenAt0 1 =
      Except.ok (AuthService.generateToken alice 1,
        AuthService.storeToken refreshOkState alice.id
          (AuthService.generateToken alice 1) 1) ∧
    AuthService.generateToken alice 1 ≠ tokenAt0 := by
  have h := (refreshToken_behaviour refreshOkState tokenAt0 1
    (jwtDecode tokenAt0) rfl).2 alice rfl
  exact ⟨h.1, h.2 (by decide)⟩

/-- C9: the session cache is not string-transparent.  After a successful
`set(k, v, ttl)` on a healthy connection, `get(k)` returns `JSON.parse(v)`
whenever `v` is valid JSON text and the raw string `v` otherwise, so the
round-trip is the identity exactly for the strings that are NOT valid
JSON (storing the string `"123"` yields back the number 123, see the
witness). -/
theorem redis_get_after_set (st : RedisState) (key value : String)
    (ttl : Option Int) (hconn : st.connected = true)
    (hok : (RedisManager.set st key value ttl).1.isSome = true) :
    RedisManager.get (RedisManager.set st key value ttl).2 key =
      some (match jsonParse value with | some j => j | none => .str value) ∧
    (RedisManager.get (RedisManager.set st key value ttl).2 key =
        some (.str value) ↔ jsonParse value = none) := by
  have hset : RedisManager.set st key value ttl =
      (some "OK", { st with entries := upsertKV st.entries key value }) := by
    unfold RedisManager.set RedisManager.ensureConnection at hok ⊢
    rw [hconn] at hok ⊢
    match ttl with
    | none => rfl
    | some t =>
      by_cases h0 : t = 0
      · simp [h0]
      · by_cases hpos : 0 < t
        · simp [h0, hpos]
        · simp [h0, hpos] at hok
  rw [hset]
  have hget : RedisManager.get { st with entries := upsertKV st.entries key value } key =
      (match jsonParse value with | some j => some j | none => some (.str value)) := by
    unfold RedisManager.get RedisManager.ensureConnection
    rw [show ({ st with entries := upsertKV st.entries key value } : RedisState).connected
        = true from hconn]
    rw [show lookupKV ({ st with entries := upsertKV st.entries key value } :
        RedisState).entries key = some value from lookupKV_upsertKV_self ..]
    rfl
  constructor
  · rw [hget]
    cases jsonParse value <;> rfl
  · rw [hget]
    cases hj : jsonParse value with
    | none => simp
    | some j =>
      simp only [Option.some.injEq]
      constructor
      · intro hstr
        exact absurd (hj.trans (by rw [hstr])) (jsonParse_ne_str_self value)
      · intro hfalse
        exact absurd hfalse (by simp)

theorem redis_get_after_set_witness :
    RedisManager.get (RedisManager.set ⟨[], true⟩ "k" "123" (some 60)).2 "k" =
      some (.num "123") :=
  ((redis_get_after_set ⟨[], true⟩ "k" "123" (some 60) rfl rfl).1).trans (by rfl)

end ZzzBlog
